import Mathlib

/-!
Verification of the `adb-record-screen` recording orchestrator (`index.js`).

The orchestrator sequences up to five external `adb` invocations
(connect, wait-for-device, record, pull, delete), combines their textual
outputs and exposes a stoppable promise.  We embed it shallowly:

* `Options` mirrors the caller-supplied options object; an absent (or
  `undefined`) field is `none`.
* `mergeDefaults` mirrors `Object.assign({port:5555, waitTimeout:5000,
  pullDelay:200}, options)` for absent fields.
* `buildADBArgs` / `buildScreenRecordArgs` mirror the argument builders.
* External process behaviour is an oracle `Env`: what each invocation
  would return, whether `stop` was called while the recording process was
  active, and how many (ineffective) `stop` calls happen before the
  recording starts or after it exits.
* `run` mirrors `recordScreen`'s control flow and returns the trace of
  performed invocations / delays, the settled outcome of the promise
  chain, and whether the recording step was ever started.
* `crypto.randomBytes(16).toString('hex')` is abstracted as the `fileID`
  parameter.
-/

/-- Result of a promisified `execFile` call: captured stdout and stderr. -/
structure ExecResult where
  stdout : String
  stderr : String
deriving Repr, DecidableEq

/-- An error thrown by an external invocation (message plus captured stderr). -/
structure ExecError where
  message : String
  stderr : String
deriving Repr, DecidableEq

/-- Caller-supplied options object (`Options` typedef in `index.js`).
`none` models an absent field. -/
structure Options where
  serial : Option String := none
  transportID : Option String := none
  hostname : Option String := none
  port : Option Nat := none
  waitTimeout : Option Nat := none
  bugreport : Option Bool := none
  size : Option String := none
  bitRate : Option Int := none
  timeLimit : Option Int := none
  pullDelay : Option Nat := none
deriving Repr, DecidableEq

/-- The options after `Object.assign({port: 5555, waitTimeout: 5000,
pullDelay: 200}, options)`: the three numeric fields always hold a value. -/
structure MergedOptions where
  serial : Option String
  transportID : Option String
  hostname : Option String
  port : Nat
  waitTimeout : Nat
  bugreport : Option Bool
  size : Option String
  bitRate : Option Int
  timeLimit : Option Int
  pullDelay : Nat
deriving Repr, DecidableEq

/-- `Object.assign({port: 5555, waitTimeout: 5000, pullDelay: 200}, options)`
(for fields absent from `options`; the target literal is fresh, the source
object is only read). -/
def mergeDefaults (o : Options) : MergedOptions where
  serial := o.serial
  transportID := o.transportID
  hostname := o.hostname
  port := o.port.getD 5555
  waitTimeout := o.waitTimeout.getD 5000
  bugreport := o.bugreport
  size := o.size
  bitRate := o.bitRate
  timeLimit := o.timeLimit
  pullDelay := o.pullDelay.getD 200

/-- JavaScript truthiness of an optional string: present and nonempty. -/
def truthyStr : Option String → Bool
  | some s => s ≠ ""
  | none => false

/-- JavaScript truthiness of an optional number: present and nonzero. -/
def truthyInt : Option Int → Bool
  | some n => n ≠ 0
  | none => false

/-- JavaScript truthiness of an optional boolean: present and `true`. -/
def truthyBool : Option Bool → Bool
  | some b => b
  | none => false

/-- `buildADBArgs` from `index.js`: `-s <serial>` when `serial` is truthy,
then `-t <transportID>` when `transportID` is truthy. -/
def buildADBArgs (o : MergedOptions) : List String :=
  (if truthyStr o.serial then ["-s", o.serial.getD ""] else []) ++
    (if truthyStr o.transportID then ["-t", o.transportID.getD ""] else [])

/-- `buildScreenRecordArgs` from `index.js`: the fixed head
`shell screenrecord --verbose`, each flag appended when its option is
truthy, the file name as final positional argument.  `String(n)` on a
JavaScript integer matches `toString` on `Int`. -/
def buildScreenRecordArgs (fileName : String) (o : MergedOptions) : List String :=
  ["shell", "screenrecord", "--verbose"] ++
    (if truthyBool o.bugreport then ["--bugreport"] else []) ++
    (if truthyStr o.size then ["--size", o.size.getD ""] else []) ++
    (if truthyInt o.bitRate then ["--bit-rate", toString (o.bitRate.getD 0)] else []) ++
    (if truthyInt o.timeLimit then ["--time-limit", toString (o.timeLimit.getD 0)] else []) ++
    [fileName]

/-- `/sdcard/Movies/${fileID}.mp4`. -/
def deviceFileNameOf (fileID : String) : String :=
  "/sdcard/Movies/" ++ fileID ++ ".mp4"

/-- Arguments of the connect invocation: `connect ${hostname}:${port}`
(no device selectors in the source). -/
def connectArgsOf (o : MergedOptions) : List String :=
  ["connect", o.hostname.getD "" ++ ":" ++ toString o.port]

/-- Arguments of the record invocation:
`adbArgs.concat(buildScreenRecordArgs(deviceFileName, opts))`. -/
def recordArgsOf (fileID : String) (o : MergedOptions) : List String :=
  buildADBArgs o ++ buildScreenRecordArgs (deviceFileNameOf fileID) o

/-- Arguments of the pull invocation:
`adbArgs.concat(['pull', '-a', deviceFileName, fileName])`. -/
def pullArgsOf (fileName fileID : String) (o : MergedOptions) : List String :=
  buildADBArgs o ++ ["pull", "-a", deviceFileNameOf fileID, fileName]

/-- The combined remote shell command of the delete step:
`rm ${file} && am broadcast -a ${action} -d file://${file}`. -/
def deleteCmdOf (fileID : String) : String :=
  "rm " ++ deviceFileNameOf fileID ++
    " && am broadcast -a android.intent.action.MEDIA_SCANNER_SCAN_FILE -d file://" ++
    deviceFileNameOf fileID

/-- Arguments of the delete invocation: `adbArgs.concat(['shell', cmd])`. -/
def deleteArgsOf (fileID : String) (o : MergedOptions) : List String :=
  buildADBArgs o ++ ["shell", deleteCmdOf fileID]

/-- Whether a character is matched by `.` in a JavaScript regular
expression without the `s` flag: any character except a line terminator. -/
def dotMatch (c : Char) : Bool :=
  c ≠ '\n' && c ≠ '\r' && c ≠ ' ' && c ≠ ' '

/-- Given the characters of a line after its first character, whether the
pattern `%.+?\n` can fire at some `%` in them: a `%` followed by at least
one character, all characters after that `%` matched by `.` (the `\n`
terminating the line closes the match). -/
def progressTail : List Char → Bool
  | [] => false
  | '%' :: rest => (!rest.isEmpty && rest.all dotMatch) || progressTail rest
  | _ :: rest => progressTail rest

/-- Whether the JavaScript regex `[^\n]+%.+?\n` matches a `\n`-terminated
line with the given content (content excludes the `\n`): at least one
character must precede the pivot `%`, and at least one `.`-matchable
character must follow it up to the `\n`.  Such a match always extends
from the start of the line through its `\n`, so `replace(..., '')` drops
exactly these lines. -/
def isProgressLine : List Char → Bool
  | [] => false
  | _ :: rest => progressTail rest

/-- One pass of `stdout.replace(/[^\n]+%.+?\n/g, '')` over the character
list: `cur` accumulates the current line (reversed); at each `\n` the
finished line is dropped when the regex matches it; a trailing fragment
without `\n` is always kept. -/
def stripAux : List Char → List Char → List Char
  | cur, [] => cur.reverse
  | cur, c :: rest =>
    if c = '\n' then
      (if isProgressLine cur.reverse then [] else cur.reverse ++ ['\n']) ++ stripAux [] rest
    else stripAux (c :: cur) rest

/-- `stdout.replace(/[^\n]+%.+?\n/g, '')` from `pullFile`. -/
def stripProgress (s : String) : String :=
  ⟨stripAux [] s.data⟩

/-- Contents of the `\n`-terminated lines of a character list (the
unterminated tail, if any, is not a line). -/
def termLinesAux : List Char → List Char → List (List Char)
  | _, [] => []
  | cur, c :: rest =>
    if c = '\n' then cur.reverse :: termLinesAux [] rest
    else termLinesAux (c :: cur) rest

/-- Contents of the `\n`-terminated lines of a string. -/
def termLines (s : String) : List (List Char) :=
  termLinesAux [] s.data

/-- `recordingProcess` as observed by `stop`: `none` while no recording
process is active, `some killed` (the process's `killed` flag) while one
is.  `stop` mirrors `if (recordingProcess) recordingProcess.kill('SIGINT')`:
it returns the new process state and the list of signals sent. -/
def stop : Option Bool → Option Bool × List String
  | none => (none, [])
  | some _ => (some true, ["SIGINT"])

instance {ε α : Type} [DecidableEq ε] [DecidableEq α] : DecidableEq (Except ε α) := fun a b =>
  match a, b with
  | .error e, .error f => if h : e = f then .isTrue (by rw [h]) else .isFalse (by simp [h])
  | .error _, .ok _ => .isFalse (by simp)
  | .ok _, .error _ => .isFalse (by simp)
  | .ok x, .ok y => if h : x = y then .isTrue (by rw [h]) else .isFalse (by simp [h])

/-- `n` calls of `stop` against a given `recordingProcess` state. -/
def stopIterate (n : Nat) (s : Option Bool) : Option Bool :=
  (fun st => (stop st).1)^[n] s

/-- Oracle for the external world: what each `adb` invocation would return,
and when `stop` is called.  `recordError` is the error (if any) the record
process exits with; its `killed` property is determined by whether
`kill` was called on the process, not by `recordError` itself. -/
structure Env where
  connect : Except ExecError String
  wait : Except ExecError String
  recordError : Option ExecError
  recordStdout : String
  recordStderr : String
  stopsBeforeRecord : Nat
  stopDuringRecording : Bool
  stopsAfterRecord : Nat
  pull : Except ExecError ExecResult
  delete : Except ExecError ExecResult

/-- The error rejecting the returned promise, tagged by the step that
produced it.  The record error carries the `killed` flag of the process. -/
inductive OpError where
  | connectErr (e : ExecError)
  | waitErr (e : ExecError)
  | recordErr (e : ExecError) (killed : Bool)
  | pullErr (e : ExecError)
  | deleteErr (e : ExecError)
deriving Repr, DecidableEq

/-- Observable external event of a run: an `adb` invocation with its
argument list, or a `setTimeout` delay in milliseconds. -/
inductive Event where
  | invoke (args : List String)
  | delay (ms : Nat)
deriving Repr, DecidableEq

/-- Events of the connect step: one invocation when `hostname` is truthy. -/
def connectEvents (o : MergedOptions) : List Event :=
  if truthyStr o.hostname then [.invoke (connectArgsOf o)] else []

/-- Result of the connect step: skipped (`ok ""`) when `hostname` is not
truthy, otherwise the oracle's answer (stdout of `execFileSync`). -/
def connectResult (o : MergedOptions) (env : Env) : Except OpError String :=
  if truthyStr o.hostname then
    match env.connect with
    | .error e => .error (.connectErr e)
    | .ok out => .ok out
  else .ok ""

/-- Events of the wait-for-device step: one invocation when `waitTimeout`
is truthy (nonzero). -/
def waitEvents (o : MergedOptions) : List Event :=
  if o.waitTimeout ≠ 0 then [.invoke ["wait-for-device"]] else []

/-- Result of the wait-for-device step: skipped (`ok ""`) when
`waitTimeout` is 0, otherwise the oracle's answer (a timeout surfaces as
an `error`). -/
def waitResult (o : MergedOptions) (env : Env) : Except OpError String :=
  if o.waitTimeout ≠ 0 then
    match env.wait with
    | .error e => .error (.waitErr e)
    | .ok out => .ok out
  else .ok ""

/-- The `killed` flag of the record process at callback time: the process
starts with `killed = false`; if `stop` runs while it is active, `kill`
sets the flag — regardless of what later makes the process exit. -/
def recordKilled (env : Env) : Bool :=
  ((if env.stopDuringRecording then (stop (some false)).1 else some false).getD false)

/-- The recording phase and the promise chain hanging off it
(`recordingExecutor`, then `pullFile`, then `deleteFile`): returns the
events from the record invocation on, and the settled outcome. -/
def recordPhase (fileName fileID : String) (o : MergedOptions) (env : Env)
    (connectOutput waitForDeviceOutput : String) :
    List Event × Except OpError ExecResult :=
  let args := recordArgsOf fileID o
  let killed := recordKilled env
  match (match env.recordError with
         | some e => if killed then none else some e
         | none => none : Option ExecError) with
  | some e => ([.invoke args], .error (.recordErr e killed))
  | none =>
    -- `[connectOutput, waitForDeviceOutput, stdout].join('')`
    let result1 : ExecResult :=
      { stdout := connectOutput ++ waitForDeviceOutput ++ env.recordStdout
        stderr := env.recordStderr }
    match env.pull with
    | .error e =>
      ([.invoke args, .delay o.pullDelay, .invoke (pullArgsOf fileName fileID o)],
        .error (.pullErr e))
    | .ok pr =>
      let result2 : ExecResult :=
        { stdout := result1.stdout ++ stripProgress pr.stdout
          stderr := result1.stderr ++ pr.stderr }
      match env.delete with
      | .error e =>
        ([.invoke args, .delay o.pullDelay, .invoke (pullArgsOf fileName fileID o),
           .invoke (deleteArgsOf fileID o)],
          .error (.deleteErr e))
      | .ok dr =>
        ([.invoke args, .delay o.pullDelay, .invoke (pullArgsOf fileName fileID o),
           .invoke (deleteArgsOf fileID o)],
          .ok { stdout := result2.stdout ++ dr.stdout
                stderr := result2.stderr ++ dr.stderr })

/-- What a run of `recordScreen` produces: the trace of external events,
the settled outcome of the returned promise, and whether the recording
step was started at all. -/
structure RunOut where
  trace : List Event
  outcome : Except OpError ExecResult
  recordStarted : Bool
deriving Repr

/-- The merged options of an invocation (`options` may be omitted). -/
def optsOf (options : Option Options) : MergedOptions :=
  mergeDefaults (options.getD {})

/-- `recordScreen(fileName, options)` under oracle `env`: preflight steps
(connect, wait-for-device) abort on failure before the recording starts;
afterwards the record/pull/delete chain runs.  `stop` calls made while no
recording process exists hit the `if (recordingProcess)` guard and are
dropped (`stop_iterate_none`). -/
def run (fileName fileID : String) (options : Option Options) (env : Env) : RunOut :=
  let opts := optsOf options
  match connectResult opts env with
  | .error oe => { trace := connectEvents opts, outcome := .error oe, recordStarted := false }
  | .ok connectOutput =>
    match waitResult opts env with
    | .error oe =>
      { trace := connectEvents opts ++ waitEvents opts
        outcome := .error oe
        recordStarted := false }
    | .ok waitForDeviceOutput =>
      let p := recordPhase fileName fileID opts env connectOutput waitForDeviceOutput
      { trace := connectEvents opts ++ waitEvents opts ++ p.1
        outcome := p.2
        recordStarted := true }

/-- A fully successful, quiet oracle; concrete instances below override
the fields under test. -/
def baseEnv : Env where
  connect := .ok ""
  wait := .ok ""
  recordError := none
  recordStdout := ""
  recordStderr := ""
  stopsBeforeRecord := 0
  stopDuringRecording := false
  stopsAfterRecord := 0
  pull := .ok ⟨"", ""⟩
  delete := .ok ⟨"", ""⟩

/-- The assembled record command exactly as the spec words it (device
selector flags, `shell screenrecord --verbose`, `--bugreport` iff
`bugreport` truthy, `--size <v>` iff `size` is **set**, `--bit-rate <v>`
iff `bitRate` truthy, `--time-limit <v>` iff `timeLimit` truthy, remote
file name last) — transcribed for comparison with the source's
`buildScreenRecordArgs`. -/
def specRecordCommandClaimed (remoteFile : String) (o : MergedOptions) : List String :=
  buildADBArgs o ++ ["shell", "screenrecord", "--verbose"] ++
    (if o.bugreport.isSome && o.bugreport.getD false then ["--bugreport"] else []) ++
    (if o.size.isSome then ["--size", o.size.getD ""] else []) ++
    (if truthyInt o.bitRate then ["--bit-rate", toString (o.bitRate.getD 0)] else []) ++
    (if truthyInt o.timeLimit then ["--time-limit", toString (o.timeLimit.getD 0)] else []) ++
    [remoteFile]

/-- The assembled record command with the one amendment the code forces:
`--size <v>` appears iff `size` is truthy (set **and nonempty**), not
merely set. -/
def specRecordCommandAmended (remoteFile : String) (o : MergedOptions) : List String :=
  buildADBArgs o ++ ["shell", "screenrecord", "--verbose"] ++
    (if truthyBool o.bugreport then ["--bugreport"] else []) ++
    (if truthyStr o.size then ["--size", o.size.getD ""] else []) ++
    (if truthyInt o.bitRate then ["--bit-rate", toString (o.bitRate.getD 0)] else []) ++
    (if truthyInt o.timeLimit then ["--time-limit", toString (o.timeLimit.getD 0)] else []) ++
    [remoteFile]

/-! ## Theorems -/

/-- Helper: repeated `stop` calls against an absent recording process
leave it absent and send nothing (the `if (recordingProcess)` guard). -/
theorem stopIterate_none (n : Nat) : stopIterate n none = none := by
  induction n with
  | zero => rfl
  | succ k ih =>
    have : stopIterate (k + 1) (none : Option Bool) = stopIterate k ((stop none).1) := by
      simp [stopIterate, Function.iterate_succ_apply]
    rw [this]
    exact ih

/-- C2 counterexample: with the caller setting neither `bitRate` nor
`timeLimit` (nor anything else), the assembled record command is just
`shell screenrecord --verbose <remoteFile>` — it contains neither
`--bit-rate 4000000` nor `--time-limit 180`. -/
theorem C2_counterexample :
    recordArgsOf "video" (optsOf (some {})) =
      ["shell", "screenrecord", "--verbose", "/sdcard/Movies/video.mp4"] ∧
    "--bit-rate" ∉ recordArgsOf "video" (optsOf (some {})) ∧
    "--time-limit" ∉ recordArgsOf "video" (optsOf (some {})) ∧
    "4000000" ∉ recordArgsOf "video" (optsOf (some {})) ∧
    "180" ∉ recordArgsOf "video" (optsOf (some {})) := by
  decide

/-- C2 (amended): when the caller does not set `bitRate` or `timeLimit`,
the defaults are *not* merged in by this layer and no `--bit-rate` /
`--time-limit` flag is added; the 4000000 / 180 defaults are applied by
the external `screenrecord` tool itself. -/
theorem C2_prop (fileID : String) (o : Options)
    (hb : o.bitRate = none) (ht : o.timeLimit = none) :
    buildScreenRecordArgs (deviceFileNameOf fileID) (mergeDefaults o) =
      ["shell", "screenrecord", "--verbose"] ++
        (if truthyBool o.bugreport then ["--bugreport"] else []) ++
        (if truthyStr o.size then ["--size", o.size.getD ""] else []) ++
        [deviceFileNameOf fileID] := by
  simp [buildScreenRecordArgs, mergeDefaults, hb, ht, truthyInt]

/-- C2 witness: `C2_prop` evaluated at the empty options object. -/
theorem C2_witness :
    buildScreenRecordArgs (deviceFileNameOf "vid") (mergeDefaults {}) =
      ["shell", "screenrecord", "--verbose"] ++
        (if truthyBool ({} : Options).bugreport then ["--bugreport"] else []) ++
        (if truthyStr ({} : Options).size then ["--size", ({} : Options).size.getD ""] else []) ++
        [deviceFileNameOf "vid"] :=
  C2_prop "vid" {} rfl rfl

/-- C3 counterexample: with `size` **set** to the empty string, the claim's
command shape (`--size <v>` iff `size` is set) disagrees with the code,
which tests truthiness: the assembled command contains no `--size`. -/
theorem C3_counterexample :
    (optsOf (some { size := some "" })).size.isSome = true ∧
    "--size" ∉ recordArgsOf "video" (optsOf (some { size := some "" })) ∧
    recordArgsOf "video" (optsOf (some { size := some "" })) ≠
      specRecordCommandClaimed (deviceFileNameOf "video") (optsOf (some { size := some "" })) := by
  decide

/-- C3 (amended): for all option combinations the assembled record
command is deterministic and has the fixed shape — device-selector flags,
`shell screenrecord --verbose`, `--bugreport` iff `bugreport` truthy,
`--size <v>` iff `size` truthy (set and nonempty), `--bit-rate <v>` iff
`bitRate` truthy, `--time-limit <v>` iff `timeLimit` truthy, remote file
name last, flag order fixed as listed. -/
theorem C3_prop (fileID : String) (o : MergedOptions) :
    recordArgsOf fileID o = specRecordCommandAmended (deviceFileNameOf fileID) o := by
  simp [recordArgsOf, buildScreenRecordArgs, specRecordCommandAmended, List.append_assoc]

/-- Helper: a failing connect step makes `recordScreen` return a rejected
promise immediately; only the connect invocation happened. -/
theorem run_connect_fail (fileName fileID : String) (o : Option Options) (env : Env) (oe : OpError)
    (hc : connectResult (optsOf o) env = .error oe) :
    run fileName fileID o env =
      { trace := connectEvents (optsOf o), outcome := .error oe, recordStarted := false } := by
  simp [run, hc]

/-- Helper: a failing wait-for-device step makes `recordScreen` return a
rejected promise; only the preflight invocations happened. -/
theorem run_wait_fail (fileName fileID : String) (o : Option Options) (env : Env)
    (co : String) (oe : OpError)
    (hc : connectResult (optsOf o) env = .ok co)
    (hw : waitResult (optsOf o) env = .error oe) :
    run fileName fileID o env =
      { trace := connectEvents (optsOf o) ++ waitEvents (optsOf o)
        outcome := .error oe
        recordStarted := false } := by
  simp [run, hc, hw]

/-- Helper: with both preflight steps passed (or skipped), the run is the
preflight events followed by the recording phase. -/
theorem run_preflight_ok (fileName fileID : String) (o : Option Options) (env : Env)
    (co wo : String)
    (hc : connectResult (optsOf o) env = .ok co)
    (hw : waitResult (optsOf o) env = .ok wo) :
    run fileName fileID o env =
      { trace := connectEvents (optsOf o) ++ waitEvents (optsOf o) ++
          (recordPhase fileName fileID (optsOf o) env co wo).1
        outcome := (recordPhase fileName fileID (optsOf o) env co wo).2
        recordStarted := true } := by
  simp [run, hc, hw]

/-- Helper: `stop` during recording sets the process `killed` flag. -/
theorem recordKilled_of_stop (env : Env) (h : env.stopDuringRecording = true) :
    recordKilled env = true := by
  simp [recordKilled, h, stop]

/-- Helper: without a `stop` call the `killed` flag stays `false`. -/
theorem recordKilled_of_noStop (env : Env) (h : env.stopDuringRecording = false) :
    recordKilled env = false := by
  simp [recordKilled, h]

/-- Helper: a record-process error with `killed = false` rejects the chain
right after the record invocation (`if (error && !error.killed) return
reject(error)`). -/
theorem recordPhase_reject (fileName fileID : String) (o : MergedOptions) (env : Env)
    (co wo : String) (e : ExecError)
    (he : env.recordError = some e) (hk : recordKilled env = false) :
    recordPhase fileName fileID o env co wo =
      ([.invoke (recordArgsOf fileID o)], .error (.recordErr e false)) := by
  simp [recordPhase, he, hk]

/-- Helper: when the recording ends acceptably but the pull invocation
fails, the chain stops after the pull invocation. -/
theorem recordPhase_pullFail (fileName fileID : String) (o : MergedOptions) (env : Env)
    (co wo : String) (e : ExecError)
    (hgo : env.recordError = none ∨ recordKilled env = true)
    (hp : env.pull = .error e) :
    recordPhase fileName fileID o env co wo =
      ([.invoke (recordArgsOf fileID o), .delay o.pullDelay,
        .invoke (pullArgsOf fileName fileID o)], .error (.pullErr e)) := by
  rcases hgo with h | h
  · simp [recordPhase, h, hp]
  · cases hre : env.recordError with
    | none => simp [recordPhase, hre, hp]
    | some e' => simp [recordPhase, hre, h, hp]

/-- Helper: when the delete invocation fails, the chain has performed all
four record-phase events and rejects with the delete error. -/
theorem recordPhase_deleteFail (fileName fileID : String) (o : MergedOptions) (env : Env)
    (co wo : String) (pr : ExecResult) (e : ExecError)
    (hgo : env.recordError = none ∨ recordKilled env = true)
    (hp : env.pull = .ok pr) (hd : env.delete = .error e) :
    recordPhase fileName fileID o env co wo =
      ([.invoke (recordArgsOf fileID o), .delay o.pullDelay,
        .invoke (pullArgsOf fileName fileID o), .invoke (deleteArgsOf fileID o)],
        .error (.deleteErr e)) := by
  rcases hgo with h | h
  · simp [recordPhase, h, hp, hd]
  · cases hre : env.recordError with
    | none => simp [recordPhase, hre, hp, hd]
    | some e' => simp [recordPhase, hre, h, hp, hd]

/-- Helper: the fully successful recording phase and its combined output. -/
theorem recordPhase_ok (fileName fileID : String) (o : MergedOptions) (env : Env)
    (co wo : String) (pr dr : ExecResult)
    (hgo : env.recordError = none ∨ recordKilled env = true)
    (hp : env.pull = .ok pr) (hd : env.delete = .ok dr) :
    recordPhase fileName fileID o env co wo =
      ([.invoke (recordArgsOf fileID o), .delay o.pullDelay,
        .invoke (pullArgsOf fileName fileID o), .invoke (deleteArgsOf fileID o)],
        .ok { stdout := co ++ wo ++ env.recordStdout ++ stripProgress pr.stdout ++ dr.stdout
              stderr := env.recordStderr ++ pr.stderr ++ dr.stderr }) := by
  rcases hgo with h | h
  · simp [recordPhase, h, hp, hd]
  · cases hre : env.recordError with
    | none => simp [recordPhase, hre, hp, hd]
    | some e' => simp [recordPhase, hre, h, hp, hd]

/-- Helper: the only connect-step event is the connect invocation. -/
theorem mem_connectEvents (o : MergedOptions) (ev : Event) (h : ev ∈ connectEvents o) :
    ev = .invoke (connectArgsOf o) := by
  unfold connectEvents at h
  split at h
  · simpa using h
  · simp at h

/-- Helper: the only wait-step event is the wait-for-device invocation. -/
theorem mem_waitEvents (o : MergedOptions) (ev : Event) (h : ev ∈ waitEvents o) :
    ev = .invoke ["wait-for-device"] := by
  unfold waitEvents at h
  split at h
  · simpa using h
  · simp at h

theorem recordPhase_events_mem (fileName fileID : String) (o : MergedOptions) (env : Env)
    (co wo : String) (ev : Event)
    (h : ev ∈ (recordPhase fileName fileID o env co wo).1) :
    ev = .invoke (recordArgsOf fileID o) ∨ ev = .delay o.pullDelay ∨
    ev = .invoke (pullArgsOf fileName fileID o) ∨ ev = .invoke (deleteArgsOf fileID o) := by
  rcases env with ⟨c, w, re, rs, rse, sb, sd, sa, p, d⟩
  cases re <;> cases sd <;> cases p <;> cases d <;>
    simp [recordPhase, recordKilled, stop] at h <;> tauto

/-- Helper: every invocation a run performs is one of the five `adb`
invocations of the source. -/
theorem trace_invoke_mem (fileName fileID : String) (o : Option Options) (env : Env)
    (args : List String)
    (h : Event.invoke args ∈ (run fileName fileID o env).trace) :
    args = connectArgsOf (optsOf o) ∨ args = ["wait-for-device"] ∨
    args = recordArgsOf fileID (optsOf o) ∨ args = pullArgsOf fileName fileID (optsOf o) ∨
    args = deleteArgsOf fileID (optsOf o) := by
  cases hc : connectResult (optsOf o) env with
  | error oe =>
    rw [run_connect_fail fileName fileID o env oe hc] at h
    exact .inl (by simpa using mem_connectEvents _ _ h)
  | ok co =>
    cases hw : waitResult (optsOf o) env with
    | error oe =>
      rw [run_wait_fail fileName fileID o env co oe hc hw] at h
      rcases List.mem_append.mp h with h1 | h2
      · exact .inl (by simpa using mem_connectEvents _ _ h1)
      · exact .inr (.inl (by simpa using mem_waitEvents _ _ h2))
    | ok wo =>
      rw [run_preflight_ok fileName fileID o env co wo hc hw] at h
      rcases List.mem_append.mp h with h12 | h3
      · rcases List.mem_append.mp h12 with h1 | h2
        · exact .inl (by simpa using mem_connectEvents _ _ h1)
        · exact .inr (.inl (by simpa using mem_waitEvents _ _ h2))
      · rcases recordPhase_events_mem fileName fileID (optsOf o) env co wo _ h3 with
          h' | h' | h' | h'
        · exact .inr (.inr (.inl (by simpa using h')))
        · simp at h'
        · exact .inr (.inr (.inr (.inl (by simpa using h'))))
        · exact .inr (.inr (.inr (.inr (by simpa using h'))))

/-- C1 counterexample: with `serial` set (`["-s", "abc"]` assembled) and
`hostname` set, the connect and wait-for-device invocations of the very
same run do **not** carry the device-selector arguments, contradicting
“prepended to every external-tool invocation”. -/
theorem C1_counterexample :
    buildADBArgs (optsOf (some { serial := some "abc", hostname := some "host" })) = ["-s", "abc"] ∧
    Event.invoke ["connect", "host:5555"] ∈
      (run "local.mp4" "vid" (some { serial := some "abc", hostname := some "host" }) baseEnv).trace ∧
    Event.invoke ["wait-for-device"] ∈
      (run "local.mp4" "vid" (some { serial := some "abc", hostname := some "host" }) baseEnv).trace ∧
    ["connect", "host:5555"].take 2 ≠ ["-s", "abc"] ∧
    ["wait-for-device"].take 2 ≠ ["-s", "abc"] := by
  decide

/-- C1 (amended): the device-selector arguments (`-s <serial>`,
`-t <transportID>`, serial first) are prepended to the record, pull and
delete invocations; the connect and wait-for-device invocations are the
only ones performed without them. -/
theorem C1_prop (fileName fileID : String) (o : Option Options) (env : Env) :
    (∀ s t, (optsOf o).serial = some s → s ≠ "" → (optsOf o).transportID = some t → t ≠ "" →
      buildADBArgs (optsOf o) = ["-s", s, "-t", t]) ∧
    (∀ args, Event.invoke args ∈ (run fileName fileID o env).trace →
      args = connectArgsOf (optsOf o) ∨ args = ["wait-for-device"] ∨
      args.take (buildADBArgs (optsOf o)).length = buildADBArgs (optsOf o)) := by
  constructor
  · intro s t h1 h2 h3 h4
    simp [buildADBArgs, truthyStr, h1, h2, h3, h4]
  · intro args h
    rcases trace_invoke_mem fileName fileID o env args h with h' | h' | h' | h' | h'
    · exact .inl h'
    · exact .inr (.inl h')
    · refine .inr (.inr ?_)
      rw [h', recordArgsOf]
      exact List.take_left _ _
    · refine .inr (.inr ?_)
      rw [h', pullArgsOf]
      exact List.take_left _ _
    · refine .inr (.inr ?_)
      rw [h', deleteArgsOf]
      exact List.take_left _ _

/-- C1 witness: `C1_prop` applied to the pull invocation of a concrete
run with `serial` set. -/
theorem C1_witness :
    ["-s", "ser", "pull", "-a", "/sdcard/Movies/vid.mp4", "local.mp4"] =
        connectArgsOf (optsOf (some { serial := some "ser" })) ∨
    ["-s", "ser", "pull", "-a", "/sdcard/Movies/vid.mp4", "local.mp4"] = ["wait-for-device"] ∨
    (["-s", "ser", "pull", "-a", "/sdcard/Movies/vid.mp4", "local.mp4"].take
        (buildADBArgs (optsOf (some { serial := some "ser" }))).length =
      buildADBArgs (optsOf (some { serial := some "ser" }))) :=
  (C1_prop "local.mp4" "vid" (some { serial := some "ser" }) baseEnv).2
    ["-s", "ser", "pull", "-a", "/sdcard/Movies/vid.mp4", "local.mp4"] (by decide)

/-- C5: if a preflight step fails (connect with `hostname` set, or
wait-for-device including its timeout), the promise rejects with the
underlying error, the recording never starts, no record/pull/delete
invocation occurs, and `stop` is a no-op (never throws: `stop` is total;
the absent process is left untouched). -/
theorem C5_prop (fileName fileID : String) (o : Option Options) (env : Env) (oe : OpError)
    (h : connectResult (optsOf o) env = .error oe ∨
         ((∃ co, connectResult (optsOf o) env = .ok co) ∧ waitResult (optsOf o) env = .error oe)) :
    (run fileName fileID o env).outcome = .error oe ∧
    (run fileName fileID o env).recordStarted = false ∧
    (∀ args, Event.invoke args ∈ (run fileName fileID o env).trace →
      args = connectArgsOf (optsOf o) ∨ args = ["wait-for-device"]) ∧
    (∀ n, stopIterate n none = none) := by
  rcases h with hc | ⟨⟨co, hc⟩, hw⟩
  · rw [run_connect_fail fileName fileID o env oe hc]
    refine ⟨rfl, rfl, ?_, stopIterate_none⟩
    intro args h
    exact .inl (by simpa using mem_connectEvents _ _ h)
  · rw [run_wait_fail fileName fileID o env co oe hc hw]
    refine ⟨rfl, rfl, ?_, stopIterate_none⟩
    intro args h
    rcases List.mem_append.mp h with h1 | h2
    · exact .inl (by simpa using mem_connectEvents _ _ h1)
    · exact .inr (by simpa using mem_waitEvents _ _ h2)

/-- C5 witness: `C5_prop` at a concrete failing connect step. -/
theorem C5_witness :
    (run "local.mp4" "vid" (some { hostname := some "h" })
        { baseEnv with connect := .error ⟨"boom", "err"⟩ }).outcome =
      .error (.connectErr ⟨"boom", "err"⟩) ∧
    (run "local.mp4" "vid" (some { hostname := some "h" })
        { baseEnv with connect := .error ⟨"boom", "err"⟩ }).recordStarted = false :=
  ⟨(C5_prop "local.mp4" "vid" (some { hostname := some "h" })
      { baseEnv with connect := .error ⟨"boom", "err"⟩ } (.connectErr ⟨"boom", "err"⟩)
      (Or.inl rfl)).1,
   (C5_prop "local.mp4" "vid" (some { hostname := some "h" })
      { baseEnv with connect := .error ⟨"boom", "err"⟩ } (.connectErr ⟨"boom", "err"⟩)
      (Or.inl rfl)).2.1⟩

/-- C4: a record-process error not attributable to the `stop` interrupt
(killed flag unset) rejects the promise with that error and neither the
pull nor the delete invocation ever happens; a clean or stop-interrupted
exit proceeds to the pull invocation only after a `pullDelay`-millisecond
delay. -/
theorem C4_prop (fileName fileID : String) (o : Option Options) (env : Env) (co wo : String)
    (hc : connectResult (optsOf o) env = .ok co)
    (hw : waitResult (optsOf o) env = .ok wo) :
    (∀ e, env.recordError = some e → env.stopDuringRecording = false →
      (run fileName fileID o env).outcome = .error (.recordErr e false) ∧
      (run fileName fileID o env).trace =
        connectEvents (optsOf o) ++ waitEvents (optsOf o) ++
          [.invoke (recordArgsOf fileID (optsOf o))]) ∧
    ((env.recordError = none ∨ env.stopDuringRecording = true) →
      ∃ rest, (run fileName fileID o env).trace =
        connectEvents (optsOf o) ++ waitEvents (optsOf o) ++
          ([.invoke (recordArgsOf fileID (optsOf o)), .delay (optsOf o).pullDelay,
            .invoke (pullArgsOf fileName fileID (optsOf o))] ++ rest)) := by
  rw [run_preflight_ok fileName fileID o env co wo hc hw]
  constructor
  · intro e he hs
    rw [recordPhase_reject fileName fileID (optsOf o) env co wo e he
      (recordKilled_of_noStop env hs)]
    exact ⟨rfl, rfl⟩
  · intro hgo
    have hgo' : env.recordError = none ∨ recordKilled env = true := by
      rcases hgo with h | h
      · exact .inl h
      · exact .inr (recordKilled_of_stop env h)
    cases hp : env.pull with
    | error e =>
      rw [recordPhase_pullFail fileName fileID (optsOf o) env co wo e hgo' hp]
      exact ⟨[], by simp⟩
    | ok pr =>
      cases hd : env.delete with
      | error e =>
        rw [recordPhase_deleteFail fileName fileID (optsOf o) env co wo pr e hgo' hp hd]
        exact ⟨[.invoke (deleteArgsOf fileID (optsOf o))], by simp⟩
      | ok dr =>
        rw [recordPhase_ok fileName fileID (optsOf o) env co wo pr dr hgo' hp hd]
        exact ⟨[.invoke (deleteArgsOf fileID (optsOf o))], by simp⟩

/-- C4 witness: `C4_prop` at a concrete failing record process. -/
theorem C4_witness :
    (run "f.mp4" "vid" none { baseEnv with recordError := some ⟨"fail", "bad"⟩ }).outcome =
      .error (.recordErr ⟨"fail", "bad"⟩ false) ∧
    (run "f.mp4" "vid" none { baseEnv with recordError := some ⟨"fail", "bad"⟩ }).trace =
      connectEvents (optsOf none) ++ waitEvents (optsOf none) ++
        [.invoke (recordArgsOf "vid" (optsOf none))] :=
  (C4_prop "f.mp4" "vid" none { baseEnv with recordError := some ⟨"fail", "bad"⟩ } "" ""
    rfl rfl).1 ⟨"fail", "bad"⟩ rfl rfl

/-- C7: a pull failure rejects the whole operation with the pull error and
the delete invocation never runs (the remote file is left in place); a
delete failure rejects the operation although the pull already succeeded;
a settled rejection carries exactly one error. -/
theorem C7_prop (fileName fileID : String) (o : Option Options) (env : Env) (co wo : String)
    (hc : connectResult (optsOf o) env = .ok co)
    (hw : waitResult (optsOf o) env = .ok wo)
    (hgo : env.recordError = none ∨ env.stopDuringRecording = true) :
    (∀ e, env.pull = .error e →
      (run fileName fileID o env).outcome = .error (.pullErr e) ∧
      (run fileName fileID o env).trace =
        connectEvents (optsOf o) ++ waitEvents (optsOf o) ++
          [.invoke (recordArgsOf fileID (optsOf o)), .delay (optsOf o).pullDelay,
            .invoke (pullArgsOf fileName fileID (optsOf o))]) ∧
    (∀ pr e, env.pull = .ok pr → env.delete = .error e →
      (run fileName fileID o env).outcome = .error (.deleteErr e)) ∧
    (∀ e1 e2, (run fileName fileID o env).outcome = .error e1 →
      (run fileName fileID o env).outcome = .error e2 → e1 = e2) := by
  have hgo' : env.recordError = none ∨ recordKilled env = true := by
    rcases hgo with h | h
    · exact .inl h
    · exact .inr (recordKilled_of_stop env h)
  rw [run_preflight_ok fileName fileID o env co wo hc hw]
  refine ⟨?_, ?_, ?_⟩
  · intro e hp
    rw [recordPhase_pullFail fileName fileID (optsOf o) env co wo e hgo' hp]
    exact ⟨rfl, rfl⟩
  · intro pr e hp hd
    rw [recordPhase_deleteFail fileName fileID (optsOf o) env co wo pr e hgo' hp hd]
  · intro e1 e2 h1 h2
    rw [h1] at h2
    exact Except.error.inj h2

/-- C7 witness: `C7_prop` at a concrete failing pull step. -/
theorem C7_witness :
    (run "f.mp4" "vid" none { baseEnv with pull := .error ⟨"pullfail", "ps"⟩ }).outcome =
      .error (.pullErr ⟨"pullfail", "ps"⟩) ∧
    (run "f.mp4" "vid" none { baseEnv with pull := .error ⟨"pullfail", "ps"⟩ }).trace =
      connectEvents (optsOf none) ++ waitEvents (optsOf none) ++
        [.invoke (recordArgsOf "vid" (optsOf none)), .delay (optsOf none).pullDelay,
          .invoke (pullArgsOf "f.mp4" "vid" (optsOf none))] :=
  (C7_prop "f.mp4" "vid" none { baseEnv with pull := .error ⟨"pullfail", "ps"⟩ } "" ""
    rfl rfl (Or.inl rfl)).1 ⟨"pullfail", "ps"⟩ rfl

/-- C9: once `stop` has sent the kill signal during recording, the `killed`
flag is set regardless of the actual cause of exit, any record-process
error is suppressed (the outcome is never a record error), and the
operation proceeds to the delayed pull step as if the recording had ended
normally. -/
theorem C9_prop (fileName fileID : String) (o : Option Options) (env : Env) (co wo : String)
    (hc : connectResult (optsOf o) env = .ok co)
    (hw : waitResult (optsOf o) env = .ok wo)
    (hs : env.stopDuringRecording = true) :
    recordKilled env = true ∧
    (∀ e b, (run fileName fileID o env).outcome ≠ .error (.recordErr e b)) ∧
    Event.delay (optsOf o).pullDelay ∈ (run fileName fileID o env).trace ∧
    Event.invoke (pullArgsOf fileName fileID (optsOf o)) ∈ (run fileName fileID o env).trace := by
  have hk := recordKilled_of_stop env hs
  have hgo' : env.recordError = none ∨ recordKilled env = true := .inr hk
  rw [run_preflight_ok fileName fileID o env co wo hc hw]
  cases hp : env.pull with
  | error e' =>
    rw [recordPhase_pullFail fileName fileID (optsOf o) env co wo e' hgo' hp]
    refine ⟨hk, ?_, by simp, by simp⟩
    intro e b hcontra
    simp at hcontra
  | ok pr =>
    cases hd : env.delete with
    | error e' =>
      rw [recordPhase_deleteFail fileName fileID (optsOf o) env co wo pr e' hgo' hp hd]
      refine ⟨hk, ?_, by simp, by simp⟩
      intro e b hcontra
      simp at hcontra
    | ok dr =>
      rw [recordPhase_ok fileName fileID (optsOf o) env co wo pr dr hgo' hp hd]
      refine ⟨hk, ?_, by simp, by simp⟩
      intro e b hcontra
      simp at hcontra

/-- C9 witness: `C9_prop` with a concrete record-process error arriving
after `stop`. -/
theorem C9_witness :
    recordKilled { baseEnv with
      stopDuringRecording := true
      recordError := some ⟨"SIGINT", ""⟩ } = true ∧
    Event.invoke (pullArgsOf "f.mp4" "vid" (optsOf none)) ∈
      (run "f.mp4" "vid" none { baseEnv with
        stopDuringRecording := true
        recordError := some ⟨"SIGINT", ""⟩ }).trace :=
  ⟨(C9_prop "f.mp4" "vid" none
      { baseEnv with
        stopDuringRecording := true
        recordError := some ⟨"SIGINT", ""⟩ } "" ""
      rfl rfl rfl).1,
   (C9_prop "f.mp4" "vid" none
      { baseEnv with
        stopDuringRecording := true
        recordError := some ⟨"SIGINT", ""⟩ } "" ""
      rfl rfl rfl).2.2.2⟩

/-- Helper: a newline-free character list contributes no terminated line. -/
theorem termLinesAux_nil_of_nlfree (l : List Char) :
    ∀ acc, (∀ c ∈ l, c ≠ '\n') → termLinesAux acc l = [] := by
  induction l with
  | nil => intro acc _; rfl
  | cons c rest ih =>
    intro acc h
    have hc : c ≠ '\n' := h c (.head _)
    simp only [termLinesAux, if_neg hc]
    exact ih _ fun x hx => h x (.tail _ hx)

/-- Helper: scanning past a newline-free chunk only moves it into the
accumulator. -/
theorem termLinesAux_append_nlfree (xs : List Char) :
    ∀ acc l', (∀ c ∈ xs, c ≠ '\n') →
      termLinesAux acc (xs ++ l') = termLinesAux (xs.reverse ++ acc) l' := by
  induction xs with
  | nil => intro acc l' _; simp
  | cons x rest ih =>
    intro acc l' h
    have hx : x ≠ '\n' := h x (.head _)
    simp only [List.cons_append, termLinesAux, if_neg hx]
    rw [show (x :: rest).reverse ++ acc = rest.reverse ++ (x :: acc) by simp]
    exact ih (x :: acc) l' fun c hc => h c (.tail _ hc)

/-- Helper: the terminated lines surviving the progress-stripping pass are
exactly the input's terminated lines the regex does not match. -/
theorem stripAux_termLines (l : List Char) :
    ∀ cur, (∀ c ∈ cur, c ≠ '\n') →
      termLinesAux [] (stripAux cur l) =
        (termLinesAux cur l).filter (fun ln => !isProgressLine ln) := by
  induction l with
  | nil =>
    intro cur h
    simp only [stripAux, termLinesAux, List.filter_nil]
    exact termLinesAux_nil_of_nlfree _ _ fun c hc => h c (List.mem_reverse.mp hc)
  | cons c rest ih =>
    intro cur h
    by_cases hc : c = '\n'
    · subst hc
      by_cases hp : isProgressLine cur.reverse = true
      · simp [stripAux, termLinesAux, hp]
        exact ih [] (by simp)
      · have hp' : isProgressLine cur.reverse = false := by simpa using hp
        simp [stripAux, termLinesAux, hp', List.append_assoc]
        rw [termLinesAux_append_nlfree cur.reverse [] ('\n' :: stripAux [] rest)
            (fun x hx => h x (List.mem_reverse.mp hx))]
        simp [termLinesAux]
        exact ih [] (by simp)
    · simp only [stripAux, termLinesAux, if_neg hc]
      exact ih (c :: cur) (by
        intro x hx
        rcases List.mem_cons.mp hx with h1 | h2
        · exact h1 ▸ hc
        · exact h x h2)

/-- Helper: no progress-percentage line survives `stripProgress`. -/
theorem stripProgress_no_progress (s : String) :
    ∀ ln ∈ termLines (stripProgress s), isProgressLine ln = false := by
  intro ln hln
  have heq : termLines (stripProgress s) =
      (termLinesAux [] s.data).filter (fun l => !isProgressLine l) := by
    simpa [termLines, stripProgress] using stripAux_termLines s.data [] (by simp)
  rw [heq] at hln
  have := List.of_mem_filter hln
  simpa using this

/-- C6: on full success the result's stdout is, in fixed order, the
connect-step output, the wait-step output, the record stdout, the pull
stdout with progress lines stripped, and the delete stdout; a skipped
wait step (`waitTimeout = 0`) or connect step contributes the empty
string, and no progress-percentage line from the pull step appears in
its contribution. -/
theorem C6_prop (fileName fileID : String) (o : Option Options) (env : Env)
    (co wo : String) (pr dr : ExecResult)
    (hc : connectResult (optsOf o) env = .ok co)
    (hw : waitResult (optsOf o) env = .ok wo)
    (hgo : env.recordError = none ∨ env.stopDuringRecording = true)
    (hp : env.pull = .ok pr) (hd : env.delete = .ok dr) :
    (run fileName fileID o env).outcome =
      .ok { stdout := co ++ wo ++ env.recordStdout ++ stripProgress pr.stdout ++ dr.stdout
            stderr := env.recordStderr ++ pr.stderr ++ dr.stderr } ∧
    ((optsOf o).waitTimeout = 0 → wo = "") ∧
    (truthyStr (optsOf o).hostname = false → co = "") ∧
    (∀ ln ∈ termLines (stripProgress pr.stdout), isProgressLine ln = false) := by
  have hgo' : env.recordError = none ∨ recordKilled env = true := by
    rcases hgo with h | h
    · exact .inl h
    · exact .inr (recordKilled_of_stop env h)
  refine ⟨?_, ?_, ?_, stripProgress_no_progress pr.stdout⟩
  · rw [run_preflight_ok fileName fileID o env co wo hc hw,
      recordPhase_ok fileName fileID (optsOf o) env co wo pr dr hgo' hp hd]
  · intro hwt
    rw [waitResult, hwt] at hw
    simpa using hw.symm
  · intro hh
    rw [connectResult, hh] at hc
    simpa using hc.symm

/-- C6 witness: `C6_prop` at a concrete successful run whose pull
output contains a progress line. -/
theorem C6_witness :
    (run "f.mp4" "vid" none { baseEnv with
        recordStdout := "rec\n"
        pull := .ok ⟨"[ 36%] pulling\ndone\n", "pe"⟩
        delete := .ok ⟨"del\n", "de"⟩ }).outcome =
      .ok { stdout := "" ++ "" ++ "rec\n" ++ stripProgress "[ 36%] pulling\ndone\n" ++ "del\n"
            stderr := "" ++ "pe" ++ "de" } :=
  (C6_prop "f.mp4" "vid" none
    { baseEnv with
      recordStdout := "rec\n"
      pull := .ok ⟨"[ 36%] pulling\ndone\n", "pe"⟩
      delete := .ok ⟨"del\n", "de"⟩ } "" "" ⟨"[ 36%] pulling\ndone\n", "pe"⟩ ⟨"del\n", "de"⟩
    rfl rfl (Or.inl rfl) rfl rfl).1

/-- C8: `stop` against an absent recording process does nothing (it is a
total function, so it cannot throw) and sends no signal; against an
active process it sends `SIGINT` and sets the killed flag; it is
idempotent on the process state; and the run outcome is unchanged by any
number of `stop` calls made before the recording starts or after the
process exits. -/
theorem C8_prop :
    stop none = (none, []) ∧
    (∀ k, stop (some k) = (some true, ["SIGINT"])) ∧
    (∀ s, (stop (stop s).1).1 = (stop s).1) ∧
    (∀ n, stopIterate n none = none) ∧
    (∀ fileName fileID (o : Option Options) (env : Env) n m,
      run fileName fileID o
          { env with stopsBeforeRecord := n, stopsAfterRecord := m } =
        run fileName fileID o env) := by
  refine ⟨rfl, fun k => rfl, ?_, stopIterate_none, ?_⟩
  · intro s
    cases s <;> rfl
  · intro fileName fileID o env n m
    cases env
    rfl

/-- C10: `recordScreen` merges the defaults into a fresh record — every
caller-supplied field is only read and is preserved unchanged in the
merged options (the embedding is pure, mirroring `Object.assign` with a
fresh target literal) — and omitting the options object behaves exactly
like passing an empty one. -/
theorem C10_prop (o : Options) :
    (∀ fileName fileID env, run fileName fileID none env = run fileName fileID (some {}) env) ∧
    (mergeDefaults o).serial = o.serial ∧
    (mergeDefaults o).transportID = o.transportID ∧
    (mergeDefaults o).hostname = o.hostname ∧
    (mergeDefaults o).port = o.port.getD 5555 ∧
    (mergeDefaults o).waitTimeout = o.waitTimeout.getD 5000 ∧
    (mergeDefaults o).bugreport = o.bugreport ∧
    (mergeDefaults o).size = o.size ∧
    (mergeDefaults o).bitRate = o.bitRate ∧
    (mergeDefaults o).timeLimit = o.timeLimit ∧
    (mergeDefaults o).pullDelay = o.pullDelay.getD 200 :=
  ⟨fun _ _ _ => rfl, rfl, rfl, rfl, rfl, rfl, rfl, rfl, rfl, rfl, rfl⟩
